import Mathlib

/-!
Shallow embedding of the gaming-center discovery and session-control layer:
the client-side discovery registry (`discovery_client.py`), the server-side
connection registry and dispatcher (`network_manager.py`), the server-side
discovery broadcaster (`discovery_service.py`), the server session handlers
(`server main.py` with `db_manager.py`), and the terminal-side session
manager and handlers (`client main.py`).

Python dicts are embedded as association lists with the usual lookup,
insert-or-replace and delete operations; timestamps and float quantities are
embedded as rationals; code that can raise is embedded with `Except`.
-/

namespace GamingCenter

/-! ### Association lists standing for Python dicts -/

def alookup {κ α : Type} [DecidableEq κ] : List (κ × α) → κ → Option α
  | [], _ => none
  | p :: rest, k => if p.1 = k then some p.2 else alookup rest k

def aerase {κ α : Type} [DecidableEq κ] (l : List (κ × α)) (k : κ) : List (κ × α) :=
  l.filter (fun p => decide (p.1 ≠ k))

def aset {κ α : Type} [DecidableEq κ] (l : List (κ × α)) (k : κ) (v : α) : List (κ × α) :=
  (k, v) :: aerase l k

theorem alookup_aerase_self {κ α : Type} [DecidableEq κ] (l : List (κ × α)) (k : κ) :
    alookup (aerase l k) k = none := by
  induction l with
  | nil => rfl
  | cons p rest ih =>
    by_cases h : p.1 = k
    · simpa [aerase, h] using ih
    · simpa [aerase, alookup, h] using ih

theorem alookup_aerase_ne {κ α : Type} [DecidableEq κ] (l : List (κ × α)) (k k' : κ)
    (h : k' ≠ k) : alookup (aerase l k) k' = alookup l k' := by
  induction l with
  | nil => rfl
  | cons p rest ih =>
    by_cases hp : p.1 = k
    · have hp' : ¬ p.1 = k' := fun hk => h (by rw [← hk, hp])
      have he : aerase (p :: rest) k = aerase rest k := by simp [aerase, hp]
      rw [he, ih]
      simp [alookup, hp']
    · have he : aerase (p :: rest) k = p :: aerase rest k := by simp [aerase, hp]
      by_cases hp' : p.1 = k'
      · rw [he]
        simp [alookup, hp']
      · rw [he]
        simp only [alookup]
        rw [if_neg hp', if_neg hp', ih]

theorem alookup_aset_self {κ α : Type} [DecidableEq κ] (l : List (κ × α)) (k : κ) (v : α) :
    alookup (aset l k v) k = some v := by
  simp [aset, alookup]

theorem alookup_aset_ne {κ α : Type} [DecidableEq κ] (l : List (κ × α)) (k k' : κ) (v : α)
    (h : k' ≠ k) : alookup (aset l k v) k' = alookup l k' := by
  have hk : ¬ k = k' := fun hk => h hk.symm
  simp only [aset, alookup]
  rw [if_neg hk]
  exact alookup_aerase_ne l k k' h

/-! ### Discovery client (`discovery_client.py`) -/

/-- The `ServerInfo` dataclass. Timestamps and latencies are rationals. -/
structure ServerInfo where
  name : String
  port : Nat
  version : String
  status : String
  last_seen : ℚ
  address : String
  features : List String
  latency : Option ℚ
deriving DecidableEq, Repr

/-- The fields of a decoded announcement datagram that
`_update_server_info` reads (`info` argument). -/
structure Announcement where
  name : String
  port : Nat
  version : String
  status : String
  features : List String
deriving DecidableEq, Repr

/-- The `self.servers` dict of `DiscoveryClient`, keyed by server id. -/
def ServerTable : Type := List (String × ServerInfo)

/-- The key `f"{address}:{info['port']}"` built in `_update_server_info`. -/
def server_id (address : String) (port : Nat) : String :=
  address ++ ":" ++ toString port

/-- Result of one `_update_server_info` call: the new table and whether the
`on_server_found` callback fired. -/
structure UpdateResult where
  table : ServerTable
  notified : Bool

/-- Embeds `DiscoveryClient._update_server_info`: upsert the entry keyed by
`address:port`, rebuilding it from the announcement with `last_seen = now`
and `latency = None`; the found-callback fires exactly when the key was
absent before the call. -/
def update_server_info (servers : ServerTable) (info : Announcement)
    (address : String) (now : ℚ) : UpdateResult :=
  let id := server_id address info.port
  let is_new := (alookup servers id).isNone
  let entry : ServerInfo :=
    { name := info.name
      port := info.port
      version := info.version
      status := info.status
      last_seen := now
      address := address
      features := info.features
      latency := none }
  { table := aset servers id entry, notified := is_new }

/-- One pass of the latency prober `_check_latency` over the table: each
entry's `latency` field is overwritten with that server's probe outcome
(a measured round trip, or `None` on failure). -/
def check_latency_sweep (servers : ServerTable) (probe : String → Option ℚ) : ServerTable :=
  servers.map (fun p => (p.1, { p.2 with latency := probe p.1 }))

/-- One step of the discovery loop feed: run `_update_server_info` on an
accepted announcement `(info, sender address, now)` and count the
found-notification when it fired. -/
def ann_step (acc : ServerTable × Nat) (a : Announcement × String × ℚ) : ServerTable × Nat :=
  let r := update_server_info acc.1 a.1 a.2.1 a.2.2
  (r.table, acc.2 + (if r.notified then 1 else 0))

/-- Fold a list of accepted announcements `(info, sender address, now)`
through `_update_server_info`, counting the found-notifications fired. -/
def process_announcements (servers : ServerTable)
    (anns : List (Announcement × String × ℚ)) : ServerTable × Nat :=
  anns.foldl ann_step (servers, 0)

/-- The `key=lambda s: s.latency` value used by `get_best_server` (on the
filtered list every entry's latency is present). -/
def latKey (s : ServerInfo) : ℚ := s.latency.getD 0

/-- The filter predicate of `get_best_server`. -/
def is_available (s : ServerInfo) : Bool :=
  s.status == "running" && s.latency.isSome

/-- Python's `min(available_servers, key=...)`: scan left to right keeping
the first element whose key is strictly smaller than the current best. -/
def min_by_latency : ServerInfo → List ServerInfo → ServerInfo
  | best, [] => best
  | best, s :: rest => min_by_latency (if latKey s < latKey best then s else best) rest

/-- Embeds `DiscoveryClient.get_best_server` applied to the table's value list. -/
def get_best_server (servers : List ServerInfo) : Option ServerInfo :=
  match servers.filter is_available with
  | [] => none
  | s :: rest => some (min_by_latency s rest)

theorem min_by_latency_mem (l : List ServerInfo) (b : ServerInfo) :
    min_by_latency b l = b ∨ min_by_latency b l ∈ l := by
  induction l generalizing b with
  | nil => exact Or.inl rfl
  | cons s rest ih =>
    by_cases h : latKey s < latKey b
    · rcases ih (if latKey s < latKey b then s else b) with h1 | h1
      · rw [min_by_latency, h1, if_pos h]
        exact Or.inr (List.mem_cons_self s rest)
      · exact Or.inr (List.mem_cons_of_mem s h1)
    · rcases ih (if latKey s < latKey b then s else b) with h1 | h1
      · rw [min_by_latency, h1, if_neg h]
        exact Or.inl rfl
      · exact Or.inr (List.mem_cons_of_mem s h1)

theorem min_by_latency_le (l : List ServerInfo) (b : ServerInfo) :
    latKey (min_by_latency b l) ≤ latKey b ∧
      ∀ s ∈ l, latKey (min_by_latency b l) ≤ latKey s := by
  induction l generalizing b with
  | nil => exact ⟨le_refl _, by simp⟩
  | cons s rest ih =>
    obtain ⟨hb, hl⟩ := ih (if latKey s < latKey b then s else b)
    by_cases h : latKey s < latKey b
    · refine ⟨?_, ?_⟩
      · rw [min_by_latency]
        exact le_trans hb (by rw [if_pos h]; exact le_of_lt h)
      · intro t ht
        rcases List.mem_cons.mp ht with rfl | ht
        · rw [min_by_latency]
          exact le_trans hb (by rw [if_pos h])
        · exact hl t ht
    · refine ⟨?_, ?_⟩
      · rw [min_by_latency]
        exact le_trans hb (by rw [if_neg h])
      · intro t ht
        rcases List.mem_cons.mp ht with rfl | ht
        · rw [min_by_latency]
          exact le_trans hb (by rw [if_neg h]; exact le_of_not_lt h)
        · exact hl t ht

/-- C4: `get_best_server()` returns the minimum-latency entry among exactly
the entries whose status is `"running"` and whose latency is present, and
returns none exactly when no entry qualifies; the query reads the table and
builds nothing but the answer (it is a pure function of the table here). -/
theorem C4_get_best_server (servers : List ServerInfo) :
    (get_best_server servers = none ↔ servers.filter is_available = []) ∧
      ∀ b, get_best_server servers = some b →
        b ∈ servers.filter is_available ∧
          ∀ s ∈ servers.filter is_available, latKey b ≤ latKey s := by
  cases hf : servers.filter is_available with
  | nil =>
    refine ⟨⟨fun _ => rfl, fun _ => by simp [get_best_server, hf]⟩, fun b hb => ?_⟩
    simp [get_best_server, hf] at hb
  | cons s rest =>
    refine ⟨⟨fun h => ?_, fun h => List.noConfusion h⟩, fun b hb => ?_⟩
    · simp [get_best_server, hf] at h
    · simp only [get_best_server, hf, Option.some.injEq] at hb
      subst hb
      refine ⟨?_, ?_⟩
      · rcases min_by_latency_mem rest s with h | h
        · rw [h]; exact List.mem_cons_self s rest
        · exact List.mem_cons_of_mem s h
      · intro t ht
        rcases List.mem_cons.mp ht with h | ht
        · rw [h]
          exact (min_by_latency_le rest s).1
        · exact (min_by_latency_le rest s).2 t ht

/-- Example servers from the spec's best-server test: latencies 120 ms,
45 ms and an unmeasured one. -/
def srv120 : ServerInfo :=
  { name := "a", port := 5001, version := "1.0.0", status := "running"
    last_seen := 0, address := "10.0.0.1", features := [], latency := some 120 }

def srv45 : ServerInfo :=
  { name := "b", port := 5001, version := "1.0.0", status := "running"
    last_seen := 0, address := "10.0.0.2", features := [], latency := some 45 }

def srvNone : ServerInfo :=
  { name := "c", port := 5001, version := "1.0.0", status := "running"
    last_seen := 0, address := "10.0.0.3", features := [], latency := none }

/-- C4 witness: on `[120ms, 45ms, None]` the 45 ms entry is returned, is in
the available set, and has minimal latency there. -/
theorem C4_get_best_server_witness :
    srv45 ∈ [srv120, srv45, srvNone].filter is_available ∧
      ∀ s ∈ [srv120, srv45, srvNone].filter is_available, latKey srv45 ≤ latKey s :=
  (C4_get_best_server [srv120, srv45, srvNone]).2 srv45 (by decide)

theorem ann_foldl_shift (anns : List (Announcement × String × ℚ)) :
    ∀ (servers : ServerTable) (n : Nat),
      anns.foldl ann_step (servers, n) =
        ((process_announcements servers anns).1,
          n + (process_announcements servers anns).2) := by
  induction anns with
  | nil => intro servers n; simp [process_announcements]
  | cons a rest ih =>
    intro servers n
    simp only [process_announcements, List.foldl_cons]
    have hstep : ∀ m, ann_step (servers, m) a =
        ((ann_step (servers, 0) a).1, m + (ann_step (servers, 0) a).2) := by
      intro m
      simp [ann_step]
    rw [hstep n, hstep 0]
    simp only [Nat.zero_add]
    rw [ih ((ann_step (servers, 0) a).1) (n + (ann_step (servers, 0) a).2),
      ih ((ann_step (servers, 0) a).1) ((ann_step (servers, 0) a).2)]
    simp [Nat.add_assoc, process_announcements]

theorem process_announcements_known (anns : List (Announcement × String × ℚ)) :
    ∀ (servers : ServerTable) (id : String),
      (∀ a ∈ anns, server_id a.2.1 a.1.port = id) →
      (alookup servers id).isSome →
      (process_announcements servers anns).2 = 0 := by
  induction anns with
  | nil => intro _ _ _ _; rfl
  | cons a rest ih =>
    intro servers id hid hpres
    obtain ⟨v, hv⟩ := Option.isSome_iff_exists.mp hpres
    have hkey := hid a (List.mem_cons_self a rest)
    simp only [process_announcements, List.foldl_cons]
    have hstep : ann_step (servers, 0) a =
        ((update_server_info servers a.1 a.2.1 a.2.2).table, 0) := by
      simp [ann_step, update_server_info, hkey, hv]
    rw [hstep]
    have hpres2 : (alookup (update_server_info servers a.1 a.2.1 a.2.2).table id).isSome := by
      simp only [update_server_info]
      rw [hkey, alookup_aset_self]
      rfl
    exact ih (update_server_info servers a.1 a.2.1 a.2.2).table id
      (fun b hb => hid b (List.mem_cons_of_mem a hb)) hpres2

/-- C5: over any nonempty run of accepted announcements that all resolve to
the same server id, starting from a table where that id is absent, the
found-notification fires exactly once (on the first announcement); the later
announcements refresh the entry without re-notifying. -/
theorem C5_server_found_once (servers : ServerTable) (id : String)
    (anns : List (Announcement × String × ℚ))
    (hne : anns ≠ [])
    (hid : ∀ a ∈ anns, server_id a.2.1 a.1.port = id)
    (habs : alookup servers id = none) :
    (process_announcements servers anns).2 = 1 := by
  cases anns with
  | nil => exact absurd rfl hne
  | cons a rest =>
    have hkey := hid a (List.mem_cons_self a rest)
    simp only [process_announcements, List.foldl_cons]
    have hstep : ann_step (servers, 0) a =
        ((update_server_info servers a.1 a.2.1 a.2.2).table, 1) := by
      simp [ann_step, update_server_info, hkey, habs]
    rw [hstep, ann_foldl_shift rest _ 1]
    have h0 : (process_announcements (update_server_info servers a.1 a.2.1 a.2.2).table rest).2 = 0 := by
      apply process_announcements_known rest _ id
        (fun b hb => hid b (List.mem_cons_of_mem a hb))
      simp only [update_server_info]
      rw [hkey, alookup_aset_self]
      rfl
    rw [h0]

/-- An announcement used by the discovery witnesses. -/
def annB : Announcement :=
  { name := "srv", port := 5001, version := "1.0.0", status := "running", features := [] }

/-- C5 witness: the same announcement received twice from the same sender,
into an empty table, notifies exactly once. -/
theorem C5_server_found_once_witness :
    (process_announcements [] [(annB, "10.0.0.9", 0), (annB, "10.0.0.9", 5)]).2 = 1 :=
  C5_server_found_once [] "10.0.0.9:5001" [(annB, "10.0.0.9", 0), (annB, "10.0.0.9", 5)]
    (by decide) (by decide) rfl

theorem alookup_check_latency (servers : ServerTable) (probe : String → Option ℚ)
    (id : String) :
    alookup (check_latency_sweep servers probe) id =
      (alookup servers id).map (fun s => { s with latency := probe id }) := by
  induction servers with
  | nil => rfl
  | cons p rest ih =>
    by_cases h : p.1 = id
    · subst h
      simp [check_latency_sweep, alookup]
    · simp only [check_latency_sweep, List.map_cons] at *
      simp [alookup, h, ih]

/-- C9 amended: an accepted announcement for a known id rebuilds the whole
entry — `last_seen` and the announced fields are refreshed but `latency` is
reset to `none`, discarding the previously measured value; the prober sweep
then overwrites each entry's `latency` with its probe outcome. -/
theorem C9_announcement_resets_latency (servers : ServerTable) (info : Announcement)
    (address : String) (now : ℚ) :
    alookup (update_server_info servers info address now).table (server_id address info.port) =
      some { name := info.name, port := info.port, version := info.version,
             status := info.status, last_seen := now, address := address,
             features := info.features, latency := none } ∧
      ∀ (probe : String → Option ℚ) (id : String),
        alookup (check_latency_sweep servers probe) id =
          (alookup servers id).map (fun s => { s with latency := probe id }) := by
  constructor
  · simp only [update_server_info]
    exact alookup_aset_self servers (server_id address info.port) _
  · exact alookup_check_latency servers

/-- A table holding one server whose latency was measured at 50 ms. -/
def tableWithLatency : ServerTable :=
  [("10.0.0.9:5001",
    { name := "srv", port := 5001, version := "1.0.0", status := "running",
      last_seen := 0, address := "10.0.0.9", features := [], latency := some 50 })]

/-- C9 counterexample: before the refresh announcement the stored latency is
50 ms; after it, the stored latency is `none` — the refresh does not leave
the measured latency unchanged. -/
theorem C9_counterexample :
    (alookup tableWithLatency "10.0.0.9:5001").map ServerInfo.latency = some (some 50) ∧
      (alookup (update_server_info tableWithLatency annB "10.0.0.9" 7).table
          "10.0.0.9:5001").map ServerInfo.latency = some none := by
  decide

/-! ### Server connection registry and dispatcher (`network_manager.py`) -/

/-- A registered client socket; the flag records whether `sendall` on it
succeeds (a closed or broken peer makes it raise). -/
structure ClientSocket where
  send_ok : Bool
deriving DecidableEq, Repr

/-- The mutable registry of `NetworkManager`: the `self.clients` dict and
the `self.client_status` dict. -/
structure NetState where
  clients : List (String × ClientSocket)
  client_status : List (String × String)
deriving DecidableEq, Repr

/-- Embeds `NetworkManager._remove_client`: when the ip is registered, close and
delete its socket entry and mark the status dict `"offline"`. -/
def remove_client (ns : NetState) (client_ip : String) : NetState :=
  if (alookup ns.clients client_ip).isSome then
    { clients := aerase ns.clients client_ip
      client_status := aset ns.client_status client_ip "offline" }
  else ns

/-- Embeds `NetworkManager.get_client_status`: the status dict with default
`"offline"`. -/
def get_client_status (ns : NetState) (client_ip : String) : String :=
  (alookup ns.client_status client_ip).getD "offline"

/-- Embeds `NetworkManager.send_message`: an unregistered ip fails with no state
change; a send error evicts the connection via `_remove_client` and fails;
otherwise the framed message goes out. The embedding is a total function
returning the boolean and the new registry, mirroring that the Python body
catches every send exception. -/
def send_message (ns : NetState) (client_ip : String) : Bool × NetState :=
  match alookup ns.clients client_ip with
  | none => (false, ns)
  | some sock =>
    if sock.send_ok then (true, ns) else (false, remove_client ns client_ip)

/-- C6: `send_message` returns a boolean (the embedding is total — no raise
path exists in the body): false and untouched state when the address is not
registered; on a send error, false with that entry evicted and its status
observable as offline, while every other registered connection is left
exactly as it was. -/
theorem C6_send_message (ns : NetState) (client_ip : String) :
    (alookup ns.clients client_ip = none → send_message ns client_ip = (false, ns)) ∧
      ∀ sock, alookup ns.clients client_ip = some sock → sock.send_ok = false →
        (send_message ns client_ip).1 = false ∧
          alookup (send_message ns client_ip).2.clients client_ip = none ∧
          get_client_status (send_message ns client_ip).2 client_ip = "offline" ∧
          ∀ ip, ip ≠ client_ip →
            alookup (send_message ns client_ip).2.clients ip = alookup ns.clients ip := by
  constructor
  · intro h
    simp [send_message, h]
  · intro sock hs hbad
    have hsm : send_message ns client_ip = (false, remove_client ns client_ip) := by
      simp [send_message, hs, hbad]
    have hrc : remove_client ns client_ip =
        { clients := aerase ns.clients client_ip
          client_status := aset ns.client_status client_ip "offline" } := by
      simp [remove_client, hs]
    refine ⟨by simp [hsm], ?_, ?_, ?_⟩
    · rw [hsm]
      simp only [hrc]
      exact alookup_aerase_self ns.clients client_ip
    · rw [hsm]
      simp only [hrc, get_client_status]
      rw [alookup_aset_self]
      rfl
    · intro ip hip
      rw [hsm]
      simp only [hrc]
      exact alookup_aerase_ne ns.clients client_ip ip hip

/-- A registry with one broken and one healthy connection. -/
def nsEx : NetState :=
  { clients := [("10.0.0.1", ⟨false⟩), ("10.0.0.2", ⟨true⟩)]
    client_status := [("10.0.0.1", "online"), ("10.0.0.2", "online")] }

/-- C6 witness: sending to the broken connection fails, evicts it, shows it
offline, and leaves the healthy connection's entry untouched. -/
theorem C6_send_message_witness :
    (send_message nsEx "10.0.0.1").1 = false ∧
      alookup (send_message nsEx "10.0.0.1").2.clients "10.0.0.1" = none ∧
      get_client_status (send_message nsEx "10.0.0.1").2 "10.0.0.1" = "offline" ∧
      ∀ ip, ip ≠ "10.0.0.1" →
        alookup (send_message nsEx "10.0.0.1").2.clients ip = alookup nsEx.clients ip :=
  (C6_send_message nsEx "10.0.0.1").2 ⟨false⟩ rfl rfl

/-- The JSON-object fields the server-side handlers read; an absent key is
`none`. -/
structure Message where
  type : Option String
  session_id : Option Nat
  duration : Option Int
  amount : Option ℚ
  payment_method : Option String
  status : Option String
deriving DecidableEq, Repr

/-- A registered handler callback: reads the message and the origin ip and
either returns the updated owning state or raises. -/
def Handler (σ : Type) : Type := Message → String → σ → Except Unit σ

/-- Embeds `NetworkManager.register_handler`: re-registering a type replaces the
previous handler in the dict. -/
def register_handler {σ : Type} (handlers : List (String × Handler σ))
    (message_type : String) (h : Handler σ) : List (String × Handler σ) :=
  aset handlers message_type h

/-- Embeds `NetworkManager._process_message`: `message.get('type')` is looked up
in the handler dict; a missing or unknown type drops the message; the
handler call is wrapped in `try/except`, so a raising handler is caught at
this boundary and the call returns normally. The `Except` result is what
the call as a whole surfaces to the reader loop. -/
def process_message {σ : Type} (handlers : List (String × Handler σ)) (m : Message)
    (client_ip : String) (st : σ) : Except Unit σ :=
  match m.type with
  | none => Except.ok st
  | some t =>
    match alookup handlers t with
    | none => Except.ok st
    | some h =>
      match h m client_ip st with
      | Except.ok st2 => Except.ok st2
      | Except.error _ => Except.ok st

/-- What the reader's `recv`-and-decode step produced for one iteration. -/
inductive RecvItem where
  | data (m : Message)
  | closed
  | bad_json
  | conn_reset
deriving DecidableEq, Repr

/-- The reader loop of `NetworkManager._handle_client`: it stops on a peer
close, a JSON decode failure, a connection reset, or any exception escaping
the dispatch call; each dispatched message is counted. -/
def handle_client_loop {σ : Type} (handlers : List (String × Handler σ))
    (client_ip : String) : List RecvItem → σ → σ × Nat
  | [], st => (st, 0)
  | RecvItem.data m :: rest, st =>
    match process_message handlers m client_ip st with
    | Except.ok st2 =>
      let r := handle_client_loop handlers client_ip rest st2
      (r.1, r.2 + 1)
    | Except.error _ => (st, 0)
  | _ :: _, st => (st, 0)

/-- C7: dispatch never surfaces an error to the reader loop — every call
returns `ok`; a message whose type is missing or unregistered is dropped
with the state unchanged; and the reader loop therefore dispatches every
received message of a data-only stream, no matter what the handlers do. -/
theorem C7_dispatch_never_propagates {σ : Type} (handlers : List (String × Handler σ))
    (client_ip : String) :
    (∀ (m : Message) (st : σ), ∃ st2,
        process_message handlers m client_ip st = Except.ok st2) ∧
      (∀ (m : Message) (st : σ) (t : String), m.type = some t → alookup handlers t = none →
        process_message handlers m client_ip st = Except.ok st) ∧
      ∀ (items : List RecvItem) (st : σ),
        (∀ i ∈ items, ∃ m, i = RecvItem.data m) →
        (handle_client_loop handlers client_ip items st).2 = items.length := by
  have hok : ∀ (m : Message) (st : σ), ∃ st2,
      process_message handlers m client_ip st = Except.ok st2 := by
    intro m st
    cases ht : m.type with
    | none => exact ⟨st, by simp [process_message, ht]⟩
    | some t =>
      cases hl : alookup handlers t with
      | none => exact ⟨st, by simp [process_message, ht, hl]⟩
      | some h =>
        cases hh : h m client_ip st with
        | ok st2 => exact ⟨st2, by simp [process_message, ht, hl, hh]⟩
        | error e => exact ⟨st, by simp [process_message, ht, hl, hh]⟩
  refine ⟨hok, ?_, ?_⟩
  · intro m st t ht hnone
    simp [process_message, ht, hnone]
  · intro items
    induction items with
    | nil => intro st _; rfl
    | cons i rest ih =>
      intro st hdata
      obtain ⟨m, rfl⟩ := hdata i (List.mem_cons_self i rest)
      obtain ⟨st2, hst2⟩ := hok m st
      simp only [handle_client_loop, hst2]
      rw [ih st2 (fun j hj => hdata j (List.mem_cons_of_mem _ hj))]
      simp

/-- A handler that always raises, and a message routed to it. -/
def hFail : Handler Nat := fun _ _ _ => Except.error ()

def mFail : Message :=
  { type := some "t", session_id := none, duration := none, amount := none,
    payment_method := none, status := none }

/-- C7 witness: with the only registered handler raising on every call, the
reader loop still dispatches both received messages, and dispatch returns
`ok`. -/
theorem C7_dispatch_never_propagates_witness :
    (handle_client_loop [("t", hFail)] "10.0.0.1"
        [RecvItem.data mFail, RecvItem.data mFail] 0).2 = 2 :=
  (C7_dispatch_never_propagates [("t", hFail)] "10.0.0.1").2.2
    [RecvItem.data mFail, RecvItem.data mFail] 0
    (by
      intro i hi
      rcases List.mem_cons.mp hi with h | h
      · exact ⟨mFail, h⟩
      · rcases List.mem_cons.mp h with h2 | h2
        · exact ⟨mFail, h2⟩
        · cases h2)

/-! ### Server session records (`db_manager.py` and server `main.py`) -/

/-- A row of the `sessions` table, reduced to the columns the session
handlers touch. -/
structure SessionRecord where
  computer_id : Nat
  status : String
  start_time : ℚ
  end_time : Option ℚ
  duration_minutes : Option Int
  amount_paid : Option ℚ
deriving DecidableEq, Repr

/-- A row of the `payments` table. -/
structure Payment where
  session_id : Nat
  amount : ℚ
  payment_method : String
deriving DecidableEq, Repr

/-- The database state the session claims touch: the sessions and payments
tables, and the computers table reduced to its ip column. -/
structure Database where
  sessions : List (Nat × SessionRecord)
  payments : List Payment
  computers : List (Nat × String)
deriving DecidableEq, Repr

/-- The row produced by the `UPDATE` of `DatabaseManager.end_session`. -/
def completed_row (r : SessionRecord) (now : ℚ) (duration_minutes : Int)
    (amount_paid : ℚ) : SessionRecord :=
  { r with
      end_time := some now
      duration_minutes := some duration_minutes
      amount_paid := some amount_paid
      status := "completed" }

/-- Embeds `DatabaseManager.end_session`: update the row to end now with the given
duration and amount and status `"completed"`; an unknown id updates no
row. -/
def db_end_session (db : Database) (session_id : Nat) (duration_minutes : Int)
    (amount_paid : ℚ) (now : ℚ) : Database :=
  match alookup db.sessions session_id with
  | none => db
  | some r =>
    { db with
        sessions := aset db.sessions session_id (completed_row r now duration_minutes amount_paid) }

/-- Embeds `DatabaseManager.add_payment`: insert a payments row. -/
def db_add_payment (db : Database) (session_id : Nat) (amount : ℚ)
    (payment_method : String) : Database :=
  { db with payments := db.payments ++
      [{ session_id := session_id, amount := amount, payment_method := payment_method }] }

/-- The server-side state the session claims mutate: its database and its
connection registry. -/
structure ServerState where
  db : Database
  net : NetState
deriving DecidableEq, Repr

/-- The `end_session{session_id, force_end}` command envelope. -/
structure EndSessionCmd where
  session_id : Nat
  force_end : Bool
deriving DecidableEq, Repr

/-- Embeds `GamingCenterServer.end_session` (the operator path): after the
operator confirms, look the session and its computer up, send
`end_session{force_end=true}` over the registry, and when the send
succeeded call `db.end_session(session_id, 0, 0)` at once; a failed send
only reports and leaves the database untouched. The returned list holds the
delivered commands with their destination ip. -/
def server_end_session (st : ServerState) (session_id : Nat) (confirmed : Bool)
    (now : ℚ) : ServerState × List (String × EndSessionCmd) :=
  if confirmed then
    match alookup st.db.sessions session_id with
    | none => (st, [])
    | some sess =>
      match alookup st.db.computers sess.computer_id with
      | none => (st, [])
      | some ip =>
        let r := send_message st.net ip
        if r.1 then
          ({ db := db_end_session st.db session_id 0 0 now, net := r.2 },
            [(ip, { session_id := session_id, force_end := true })])
        else
          ({ st with net := r.2 }, [])
  else (st, [])

/-- Embeds `GamingCenterServer.handle_session_end`: read `session_id` and
`duration` (absent keys raise a `KeyError`, embedded as the error case),
default `amount` to 0 and `payment_method` to `"Unknown"`, complete the
record via `db.end_session` and record the payment via `db.add_payment`. -/
def handle_session_end (m : Message) (client_ip : String) (st : ServerState)
    (now : ℚ) : Except Unit ServerState :=
  match m.session_id, m.duration with
  | some session_id, some duration =>
    let amount := m.amount.getD 0
    let payment_method := m.payment_method.getD "Unknown"
    let db2 := db_add_payment (db_end_session st.db session_id duration amount now)
      session_id amount payment_method
    Except.ok { st with db := db2 }
  | _, _ => Except.error ()

/-- C1 amended: the operator-confirmed forced end sends the command and,
when the send succeeds, itself completes the record immediately — status
`"completed"`, duration 0, amount 0, no payment row; a failed send leaves
the database untouched. Receipt of the terminal's `session_end` also
completes the record, with the reported duration and amount, and is the
path that records a payment. -/
theorem C1_forced_end_completes_record (st : ServerState) (session_id : Nat)
    (sess : SessionRecord) (ip : String) (sock : ClientSocket) (now : ℚ)
    (hs : alookup st.db.sessions session_id = some sess)
    (hc : alookup st.db.computers sess.computer_id = some ip)
    (hconn : alookup st.net.clients ip = some sock) :
    (sock.send_ok = true →
      (server_end_session st session_id true now).2 = [(ip, ⟨session_id, true⟩)] ∧
        alookup (server_end_session st session_id true now).1.db.sessions session_id =
          some (completed_row sess now 0 0) ∧
        (server_end_session st session_id true now).1.db.payments = st.db.payments) ∧
      (sock.send_ok = false →
        (server_end_session st session_id true now).1.db = st.db ∧
          (server_end_session st session_id true now).2 = []) ∧
      ∀ (m : Message) (dur : Int) (amt : ℚ) (client_ip : String),
        m.session_id = some session_id → m.duration = some dur → m.amount = some amt →
        ∃ st2, handle_session_end m client_ip st now = Except.ok st2 ∧
          alookup st2.db.sessions session_id = some (completed_row sess now dur amt) ∧
          st2.db.payments = st.db.payments ++
            [⟨session_id, amt, m.payment_method.getD "Unknown"⟩] := by
  refine ⟨?_, ?_, ?_⟩
  · intro hgood
    have hsend : send_message st.net ip = (true, st.net) := by
      simp [send_message, hconn, hgood]
    have hrun : server_end_session st session_id true now =
        ({ db := db_end_session st.db session_id 0 0 now, net := st.net }, [(ip, ⟨session_id, true⟩)]) := by
      simp [server_end_session, hs, hc, hsend]
    rw [hrun]
    refine ⟨rfl, ?_, ?_⟩
    · simp only [db_end_session, hs]
      exact alookup_aset_self st.db.sessions session_id _
    · simp [db_end_session, hs]
  · intro hbad
    have hsend : send_message st.net ip = (false, remove_client st.net ip) := by
      simp [send_message, hconn, hbad]
    simp [server_end_session, hs, hc, hsend]
  · intro m dur amt client_ip hm1 hm2 hm3
    have hrun : handle_session_end m client_ip st now =
        Except.ok { st with db := db_add_payment (db_end_session st.db session_id dur amt now) session_id amt (m.payment_method.getD "Unknown") } := by
      simp [handle_session_end, hm1, hm2, hm3]
    refine ⟨_, hrun, ?_, ?_⟩
    · simp only [db_add_payment, db_end_session, hs]
      exact alookup_aset_self st.db.sessions session_id _
    · simp [db_add_payment, db_end_session, hs]

/-- A server state with one active session on a connected computer. -/
def sessEx : SessionRecord :=
  { computer_id := 1, status := "active", start_time := 0,
    end_time := none, duration_minutes := none, amount_paid := none }

def srvStEx : ServerState :=
  { db := { sessions := [(5, sessEx)], payments := [], computers := [(1, "10.0.0.2")] }
    net := { clients := [("10.0.0.2", ⟨true⟩)], client_status := [("10.0.0.2", "online")] } }

/-- C1 witness: ending session 5 from the operator on a reachable terminal
delivers the command and immediately completes the record with duration 0,
amount 0 and no payment row. -/
theorem C1_forced_end_completes_record_witness :
    (server_end_session srvStEx 5 true 60).2 = [("10.0.0.2", ⟨5, true⟩)] ∧
      alookup (server_end_session srvStEx 5 true 60).1.db.sessions 5 =
        some (completed_row sessEx 60 0 0) ∧
      (server_end_session srvStEx 5 true 60).1.db.payments = srvStEx.db.payments :=
  (C1_forced_end_completes_record srvStEx 5 sessEx "10.0.0.2" ⟨true⟩ 60 rfl rfl rfl).1 rfl

/-- C1 counterexample: in that same run no `session_end` was received from
the terminal, yet the stored record is already `"completed"` — the claim
that the record transitions to completed only upon the terminal's
`session_end` fails on the code. -/
theorem C1_completes_without_session_end :
    (alookup (server_end_session srvStEx 5 true 60).1.db.sessions 5).map
        SessionRecord.status = some "completed" ∧
      (server_end_session srvStEx 5 true 60).2 = [("10.0.0.2", ⟨5, true⟩)] ∧
      (server_end_session srvStEx 5 true 60).1.db.payments = [] := by
  decide

/-! ### Terminal session manager and handlers (client `main.py`) -/

/-- Python `int(x)` applied to a rational: truncation toward zero. -/
def pyInt (q : ℚ) : Int := if 0 ≤ q then ⌊q⌋ else ⌈q⌉

/-- The `SessionManager` fields. The Fernet object is represented by the key
it was built from; `inactivity_timer` records whether the timer is
installed. -/
structure SessionManagerState where
  session_key : Option Nat
  fernet : Option Nat
  session_id : Option Nat
  session_start : Option ℚ
  session_duration : Option Nat
  last_activity : Option ℚ
  inactivity_timer : Bool
deriving DecidableEq, Repr

/-- The freshly constructed `SessionManager`. -/
def SessionManagerState.init : SessionManagerState :=
  { session_key := none, fernet := none, session_id := none, session_start := none,
    session_duration := none, last_activity := none, inactivity_timer := false }

/-- Embeds `SessionManager.start_session`: record id, start, duration and
activity, derive a fresh key (the PBKDF2 derivation from fresh random
material is abstracted by the `fresh_key` argument; `generate_session_key`
installs the Fernet built from it), and install the inactivity timer. -/
def SessionManagerState.start_session (sm : SessionManagerState) (session_id : Nat)
    (duration : Nat) (now : ℚ) (fresh_key : Nat) : SessionManagerState :=
  { sm with
      session_id := some session_id
      session_start := some now
      session_duration := some duration
      last_activity := some now
      session_key := some fresh_key
      fernet := some fresh_key
      inactivity_timer := true }

/-- Embeds `SessionManager.end_session`: stop the timer and clear every field. -/
def SessionManagerState.end_session (_sm : SessionManagerState) : SessionManagerState :=
  { session_key := none, fernet := none, session_id := none, session_start := none,
    session_duration := none, last_activity := none, inactivity_timer := false }

/-- Embeds `SessionManager.get_remaining_time`: 0 with no session start; otherwise
`max(0, int(duration_hours * 3600 - elapsed))`. Reading
`session_duration` while it is unset would raise, embedded as the error
case (the code only reaches it through states where both are set). -/
def get_remaining_time (sm : SessionManagerState) (now : ℚ) : Except Unit Int :=
  match sm.session_start with
  | none => Except.ok 0
  | some start =>
    match sm.session_duration with
    | none => Except.error ()
    | some duration =>
      Except.ok (max 0 (pyInt ((duration * 3600 : ℚ) - (now - start))))

/-- C10: `get_remaining_time` returns 0 when no session has been started,
and otherwise a non-negative count that is exactly 0 as soon as the elapsed
time reaches the allotted `duration_hours * 3600` seconds. -/
theorem C10_get_remaining_time_nonneg (sm : SessionManagerState) (now : ℚ) :
    (sm.session_start = none → get_remaining_time sm now = Except.ok 0) ∧
      ∀ start duration, sm.session_start = some start →
        sm.session_duration = some duration →
        ∃ r : Int, get_remaining_time sm now = Except.ok r ∧ 0 ≤ r ∧
          ((duration : ℚ) * 3600 ≤ now - start → r = 0) := by
  constructor
  · intro h
    simp [get_remaining_time, h]
  · intro start duration h1 h2
    refine ⟨max 0 (pyInt ((duration * 3600 : ℚ) - (now - start))), ?_, ?_, ?_⟩
    · simp [get_remaining_time, h1, h2]
    · exact le_max_left 0 _
    · intro hel
      have hq : ((duration : ℚ) * 3600 - (now - start)) ≤ 0 := by linarith
      have hle : pyInt ((duration : ℚ) * 3600 - (now - start)) ≤ 0 := by
        unfold pyInt
        by_cases h0 : (0 : ℚ) ≤ (duration : ℚ) * 3600 - (now - start)
        · rw [if_pos h0]
          have : ((duration : ℚ) * 3600 - (now - start)) = 0 := le_antisymm hq h0
          simp [this]
        · rw [if_neg h0]
          exact Int.ceil_le.mpr (by exact_mod_cast hq)
      exact max_eq_left hle

/-- A session manager two hours into a started session. -/
def smEx : SessionManagerState := SessionManagerState.init.start_session 7 2 100 42

/-- C10 witness: for session 7 of 2 hours started at time 100, queried
after the allotted 7200 seconds have elapsed, the remaining time is a
non-negative value that is exactly 0. -/
theorem C10_get_remaining_time_nonneg_witness :
    ∃ r : Int, get_remaining_time smEx 7305 = Except.ok r ∧ 0 ≤ r ∧
      ((2 : ℚ) * 3600 ≤ 7305 - 100 → r = 0) :=
  (C10_get_remaining_time_nonneg smEx 7305).2 100 2 rfl rfl

/-- The `session_started` acknowledgment dict built by
`handle_start_session`, with its `type` key. -/
structure AckMessage where
  type : String
  session_id : Nat
  session_key : Nat
deriving DecidableEq, Repr

/-- A line on the terminal-to-server wire: a plain JSON envelope, or the
Fernet ciphertext of a whole acknowledgment under a session key (a
ciphertext line is not a JSON object). -/
inductive WireMsg where
  | plain (m : Message)
  | encrypted (key : Nat) (m : AckMessage)
deriving DecidableEq, Repr

/-- Embeds `SessionManager.encrypt_message` on the acknowledgment dict: raises
without an installed Fernet, and otherwise produces the ciphertext of the
entire message — its `type` field included — under the session key. -/
def encrypt_message (sm : SessionManagerState) (m : AckMessage) : Except Unit WireMsg :=
  match sm.fernet with
  | none => Except.error ()
  | some key => Except.ok (WireMsg.encrypted key m)

/-- Embeds `Fernet.decrypt` on a wire line, under a given key: recovers the whole
acknowledgment from a ciphertext made with the same key. -/
def decrypt_message (key : Nat) : WireMsg → Except Unit AckMessage
  | WireMsg.encrypted k m => if k = key then Except.ok m else Except.error ()
  | WireMsg.plain _ => Except.error ()

/-- The server reader's view of one received line (`json.loads`, then
`message.get('type')` in `_process_message`): only a plain JSON envelope
exposes a type; a Fernet ciphertext line does not parse as a JSON object,
so no type is readable from it. -/
def dispatcher_read_type : WireMsg → Option String
  | WireMsg.plain m => m.type
  | WireMsg.encrypted _ _ => none

/-- The GUI-side session record `self.current_session` of
`GamingCenterClient`. -/
structure CurrentSession where
  id : Nat
  start_time : ℚ
  end_time : ℚ
deriving DecidableEq, Repr

/-- The client-side state the session claims touch: the session manager,
the GUI session record, and whether system lockdown and kiosk mode are
engaged. -/
structure ClientState where
  session_manager : SessionManagerState
  current_session : Option CurrentSession
  lockdown : Bool
  kiosk : Bool
deriving DecidableEq, Repr

/-- Embeds `GamingCenterClient.handle_start_session` together with the
`start_session` slot the emitted signal invokes: the session manager starts
(fresh key, Fernet, timers), the entire acknowledgment dict is encrypted
and sent, the GUI record gets `end_time = now + duration` hours, and
lockdown and kiosk mode are engaged. On an encryption failure nothing is
sent and the GUI transition does not happen (the session manager was
already mutated). -/
def handle_start_session (st : ClientState) (session_id : Nat) (duration : Nat)
    (now : ℚ) (fresh_key : Nat) : ClientState × List WireMsg :=
  let sm := st.session_manager.start_session session_id duration now fresh_key
  let ack : AckMessage :=
    { type := "session_started", session_id := session_id, session_key := fresh_key }
  match encrypt_message sm ack with
  | Except.error _ => ({ st with session_manager := sm }, [])
  | Except.ok w =>
    ({ session_manager := sm
       current_session := some { id := session_id, start_time := now, end_time := now + duration * 3600 }
       lockdown := true
       kiosk := true }, [w])

/-- C3 amended: on `start_session{session_id, duration}` with no active
session the terminal derives a fresh session key, computes the end time as
now plus the duration, transitions to ACTIVE, and acknowledges — but the
acknowledgment it sends is the entire `session_started` envelope encrypted
under the new key: the ciphertext carries the session id and the key (they
are recovered by decrypting with that key), while the `type` field is not
plaintext, so the server's dispatcher cannot read it. -/
theorem C3_ack_is_fully_encrypted (st : ClientState) (session_id duration : Nat)
    (now : ℚ) (fresh_key : Nat) (h : st.current_session = none) :
    (handle_start_session st session_id duration now fresh_key).1.session_manager.session_key
        = some fresh_key ∧
      (handle_start_session st session_id duration now fresh_key).1.session_manager.session_start
        = some now ∧
      (handle_start_session st session_id duration now fresh_key).1.current_session
        = some ⟨session_id, now, now + duration * 3600⟩ ∧
      (handle_start_session st session_id duration now fresh_key).2
        = [WireMsg.encrypted fresh_key ⟨"session_started", session_id, fresh_key⟩] ∧
      dispatcher_read_type (WireMsg.encrypted fresh_key ⟨"session_started", session_id, fresh_key⟩)
        = none ∧
      decrypt_message fresh_key (WireMsg.encrypted fresh_key ⟨"session_started", session_id, fresh_key⟩)
        = Except.ok ⟨"session_started", session_id, fresh_key⟩ := by
  refine ⟨?_, ?_, ?_, ?_, rfl, by simp [decrypt_message]⟩ <;>
    simp [handle_start_session, encrypt_message, SessionManagerState.start_session]

/-- A terminal with no active session. -/
def clStart : ClientState :=
  { session_manager := SessionManagerState.init, current_session := none,
    lockdown := false, kiosk := false }

/-- C3 witness: `start_session{7, 2}` at time 100 with fresh key 42. -/
theorem C3_ack_is_fully_encrypted_witness :
    (handle_start_session clStart 7 2 100 42).1.session_manager.session_key = some 42 ∧
      (handle_start_session clStart 7 2 100 42).1.session_manager.session_start = some 100 ∧
      (handle_start_session clStart 7 2 100 42).1.current_session = some ⟨7, 100, 100 + 2 * 3600⟩ ∧
      (handle_start_session clStart 7 2 100 42).2 = [WireMsg.encrypted 42 ⟨"session_started", 7, 42⟩] ∧
      dispatcher_read_type (WireMsg.encrypted 42 ⟨"session_started", 7, 42⟩) = none ∧
      decrypt_message 42 (WireMsg.encrypted 42 ⟨"session_started", 7, 42⟩) =
        Except.ok ⟨"session_started", 7, 42⟩ :=
  C3_ack_is_fully_encrypted clStart 7 2 100 42 rfl

/-- C3 counterexample: for the concrete exchange `start_session{7, 2}` the
line the terminal sends back exposes no readable type to the server's
dispatcher — in particular it does not read as `session_started`. -/
theorem C3_type_not_readable :
    (handle_start_session clStart 7 2 100 42).2 = [WireMsg.encrypted 42 ⟨"session_started", 7, 42⟩] ∧
      dispatcher_read_type (WireMsg.encrypted 42 ⟨"session_started", 7, 42⟩) = none ∧
      ¬ dispatcher_read_type (WireMsg.encrypted 42 ⟨"session_started", 7, 42⟩) =
          some "session_started" := by
  decide

/-- The outcome of the modal payment dialog. -/
inductive DialogOutcome where
  | accepted (amount : ℚ) (method : String)
  | cancelled
deriving DecidableEq, Repr

/-- Embeds `GamingCenterClient.end_session`: with no current session nothing
happens. Otherwise the elapsed minutes are computed and the payment dialog
shown; acceptance sends `session_end{...}`; cancellation sends nothing and
`return`s out of the `try` — but the `finally` block runs on that return
too, so in both cases lockdown stops, kiosk mode stops, the session manager
is cleared and the GUI session record is dropped. `force_end` only selects
the closing message box. -/
def client_end_session (st : ClientState) (force_end : Bool) (dialog : DialogOutcome)
    (now : ℚ) : ClientState × List Message :=
  match st.current_session with
  | none => (st, [])
  | some cs =>
    let duration := pyInt ((now - cs.start_time) / 60)
    let sent : List Message :=
      match dialog with
      | DialogOutcome.accepted amount method =>
        [{ type := some "session_end", session_id := some cs.id, duration := some duration,
           amount := some amount, payment_method := some method, status := none }]
      | DialogOutcome.cancelled => []
    ({ session_manager := st.session_manager.end_session, current_session := none,
       lockdown := false, kiosk := false }, sent)

/-- An active terminal session, reached through `handle_start_session`. -/
def clActive : ClientState := (handle_start_session clStart 7 2 100 42).1

/-- C2: at the failing input — an active locally-initiated end
(`force_end = false`) whose payment dialog the user cancels — the code
sends no `session_end` (as the claim says) but does not leave the session
ACTIVE: the `finally` block still clears the GUI record, wipes the session
manager (key, start, duration, timer) and releases lockdown and kiosk
mode, so the state is not unchanged. -/
theorem C2_cancel_still_ends_session :
    clActive.current_session = some ⟨7, 100, 100 + 2 * 3600⟩ ∧
      clActive.session_manager.session_key = some 42 ∧
      (client_end_session clActive false DialogOutcome.cancelled 160).2 = [] ∧
      (client_end_session clActive false DialogOutcome.cancelled 160).1.current_session = none ∧
      (client_end_session clActive false DialogOutcome.cancelled 160).1.session_manager =
        SessionManagerState.init ∧
      (client_end_session clActive false DialogOutcome.cancelled 160).1.lockdown = false ∧
      ¬ (client_end_session clActive false DialogOutcome.cancelled 160).1 = clActive := by
  have hact : clActive =
      { session_manager := SessionManagerState.init.start_session 7 2 100 42
        current_session := some ⟨7, 100, 100 + 2 * 3600⟩
        lockdown := true
        kiosk := true } := by
    simp [clActive, clStart, handle_start_session, encrypt_message,
      SessionManagerState.start_session, SessionManagerState.init]
  have hrun : client_end_session clActive false DialogOutcome.cancelled 160 =
      ({ session_manager := SessionManagerState.init, current_session := none,
         lockdown := false, kiosk := false }, []) := by
    rw [hact]
    simp [client_end_session, SessionManagerState.end_session, SessionManagerState.init]
  refine ⟨?_, ?_, ?_, ?_, ?_, ?_, ?_⟩
  · rw [hact]
  · rw [hact]; rfl
  · rw [hrun]
  · rw [hrun]
  · rw [hrun]
  · rw [hrun]
  · intro hfalse
    rw [hrun, hact] at hfalse
    simp [SessionManagerState.init, SessionManagerState.start_session] at hfalse

/-! ### Discovery broadcaster (`discovery_service.py`) -/

/-- The `NetworkInterface` dataclass. -/
structure NetworkInterface where
  name : String
  ip : String
  broadcast : String
  netmask : String
deriving DecidableEq, Repr

/-- What a run of the broadcast loop did: how many ticks the send loop ran
and, per tick, the interfaces sent on. -/
structure BroadcastRun where
  ticks_run : Nat
  sends : List (List String)
deriving DecidableEq, Repr

/-- Embeds `DiscoveryService._broadcast_loop`: sockets are created once, up front,
for the interfaces whose bind succeeds (`bind_ok`; a failing interface is
logged and skipped). With no usable socket the loop logs
`"No valid broadcast interfaces found"` and returns at once — the
surrounding thread ends without raising, so the server keeps running, but
no further attempt is ever made. Otherwise each tick while running sends
the announcement on every socket; `ticks` is how many ticks pass before the
running flag drops. -/
def broadcast_loop (interfaces : List NetworkInterface) (bind_ok : String → Bool)
    (ticks : Nat) : BroadcastRun :=
  let sockets := interfaces.filter (fun i => bind_ok i.name)
  if sockets.isEmpty then { ticks_run := 0, sends := [] }
  else { ticks_run := ticks, sends := List.replicate ticks (sockets.map NetworkInterface.name) }

/-- C8 amended: with zero bindable broadcast interfaces the loop returns
normally — the server is not crashed — but it returns immediately and runs
zero ticks: broadcasting permanently ceases until the service is
restarted, instead of retrying on subsequent ticks; with at least one
usable interface the loop runs every tick. -/
theorem C8_no_interfaces_stops_loop (interfaces : List NetworkInterface)
    (bind_ok : String → Bool) (ticks : Nat) :
    (interfaces.filter (fun i => bind_ok i.name) = [] →
        broadcast_loop interfaces bind_ok ticks = { ticks_run := 0, sends := [] }) ∧
      (interfaces.filter (fun i => bind_ok i.name) ≠ [] →
        (broadcast_loop interfaces bind_ok ticks).ticks_run = ticks) := by
  constructor
  · intro h
    simp [broadcast_loop, h]
  · intro h
    simp [broadcast_loop, List.isEmpty_iff, h]

/-- An interface whose bind fails in the run below. -/
def ifaceEx : NetworkInterface :=
  { name := "eth0", ip := "10.0.0.5", broadcast := "10.0.0.255", netmask := "255.255.255.0" }

/-- C8 witness: with the only interface unbindable the loop returns the
empty run, and with it bindable the loop runs all 3 ticks. -/
theorem C8_no_interfaces_stops_loop_witness :
    broadcast_loop [ifaceEx] (fun _ => false) 3 = { ticks_run := 0, sends := [] } ∧
      (broadcast_loop [ifaceEx] (fun _ => true) 3).ticks_run = 3 :=
  ⟨(C8_no_interfaces_stops_loop [ifaceEx] (fun _ => false) 3).1 rfl,
    (C8_no_interfaces_stops_loop [ifaceEx] (fun _ => true) 3).2 (by decide)⟩

/-- C8 counterexample: with zero usable interfaces and three ticks of
running time the loop performed no tick at all — it did not keep retrying
on subsequent ticks. -/
theorem C8_no_retry_after_empty :
    (broadcast_loop [ifaceEx] (fun _ => false) 3).ticks_run = 0 ∧
      (broadcast_loop [ifaceEx] (fun _ => false) 3).sends = [] ∧
      ¬ (broadcast_loop [ifaceEx] (fun _ => false) 3).ticks_run = 3 := by
  decide

end GamingCenter
